import Mathlib

/-!
Verification of the upstream-balance core of `go_bot`: a shallow embedding in
Lean 4 of the ledger repository (`internal/telegram/repository/upstream_balance.go`),
the balance service (`internal/telegram/service`, upstream balance part), and
the balance watcher (`internal/telegram/upstream_balance_watcher.go`), together
with theorems settling the frozen claims C1-C10 about them.

Modelling conventions:
  * Monetary amounts (Go `float64`) are embedded as exact rationals `ℚ`; the
    claims under study concern exact decimal arithmetic at small values, where
    `float64` and `ℚ` agree.
  * `int64` identifiers (chat ids, user ids) are embedded as `Int`; no claim
    performs arithmetic on them, so overflow is irrelevant.
  * The two Mongo collections `upstream_balances` and `upstream_balance_logs`
    are embedded as a `Store` of a record list and an append-only log list;
    the unique index on `chat_id` is reflected by single-record upsert.
  * Transient store/session errors (connection failures and the like) are
    environment failures, not program logic, and are not modelled; the logical
    error paths of the code (duplicate-operation short circuit, missing record
    for an existing operation) are modelled faithfully.
  * Timestamps (`created_at`/`updated_at`) appear in no claim and are omitted
    from the records.
-/

set_option maxRecDepth 8000

set_option allowUnsafeReducibility true in
attribute [semireducible] Rat.add Rat.mul Rat.inv Rat.sub Rat.ofScientific

namespace models

/-- Go `models.UpstreamBalance`: one balance record per upstream chat
(`_id` and the two timestamps omitted; see the module conventions). -/
structure UpstreamBalance where
  ChatID : Int
  Balance : ℚ
  MinBalance : ℚ
  AlertLimitPerHour : Int
deriving DecidableEq

/-- Go `models.UpstreamBalanceLog`: one append-only ledger entry.
Go's field `Type` is rendered `entryType` (`Type` is a Lean keyword). -/
structure UpstreamBalanceLog where
  ChatID : Int
  UserID : Int
  Delta : ℚ
  BalanceAfter : ℚ
  entryType : String
  Remark : String
  OperationID : String
deriving DecidableEq

/-- The persistent state of `MongoUpstreamBalanceRepository`: the
`upstream_balances` collection (at most one record per `ChatID`, kept by
upsert) and the `upstream_balance_logs` collection in insertion order. -/
structure Store where
  balances : List UpstreamBalance
  logs : List UpstreamBalanceLog
deriving DecidableEq

/-- Go `models.InterfaceBinding` (the fields the settlement path reads). -/
structure InterfaceBinding where
  ID : String
  Name : String
  Rate : String
deriving DecidableEq

/-- The `InterfaceBindings` field of Go `models.GroupSettings`. -/
structure GroupSettings where
  InterfaceBindings : List InterfaceBinding
deriving DecidableEq

/-- Go `models.Group` (the fields the settlement path reads). -/
structure Group where
  TelegramID : Int
  Settings : GroupSettings
deriving DecidableEq

/-- One per-day line item of the external billing summary
(`paymentservice.SummaryByPZID` item): a textual date and a textual gross
amount, exactly as `parseAmountFromSummary` consumes them. -/
structure SummaryItem where
  Date : String
  GrossAmount : String
deriving DecidableEq

/-- Go `paymentservice.SummaryByPZID` (the `Items` field the settlement
path reads). The Go item list may hold `nil` pointers which the loop skips;
the embedding's list holds the non-nil items. -/
structure SummaryByPZID where
  Items : List SummaryItem
deriving DecidableEq

/-- Go `models.UpstreamSettlementItem`. -/
structure UpstreamSettlementItem where
  InterfaceID : String
  InterfaceName : String
  RatePercent : ℚ
  GrossAmount : ℚ
  Deduction : ℚ
deriving DecidableEq

/-- A calendar day, standing for the Go `time.Time` values the settlement
path only ever formats with layout `2006-01-02` or compares by that format. -/
structure Date where
  year : Nat
  month : Nat
  day : Nat
deriving DecidableEq

/-- Go `service.SettlementResult`. -/
structure SettlementResult where
  Balance : UpstreamBalance
  Items : List UpstreamSettlementItem
  Deduction : ℚ
  Target : Date
deriving DecidableEq

end models

open models

instance {ε α : Type} [DecidableEq ε] [DecidableEq α] : DecidableEq (Except ε α) := fun x y =>
  match x, y with
  | .error a, .error b =>
    if h : a = b then .isTrue (by rw [h]) else .isFalse (fun hc => h (Except.error.inj hc))
  | .error _, .ok _ => .isFalse (fun hc => Except.noConfusion hc)
  | .ok _, .error _ => .isFalse (fun hc => Except.noConfusion hc)
  | .ok a, .ok b =>
    if h : a = b then .isTrue (by rw [h]) else .isFalse (fun hc => h (Except.ok.inj hc))

/-! ## Text helpers

Lean's byte-position-based `String` functions (`String.trim`,
`String.dropRight`, ...) do not reduce inside the kernel, so the embedding
mirrors the Go standard-library string functions with structurally recursive
`List Char` code and converts at the boundary. -/

/-- Go `strings.TrimSpace` on the character list (leading and trailing
whitespace removed). -/
def goTrimSpaceList (cs : List Char) : List Char :=
  ((cs.dropWhile Char.isWhitespace).reverse.dropWhile Char.isWhitespace).reverse

/-- Go `strings.TrimSpace`. -/
def goTrimSpace (s : String) : String :=
  (goTrimSpaceList s.data).asString

/-- Go `strings.TrimSuffix(s, "%")`: removes one trailing `%` when present. -/
def goTrimPercent (s : String) : String :=
  match s.data.reverse with
  | '%' :: rest => rest.reverse.asString
  | _ => s

/-- The numeric value of a digit list (most significant first). -/
def digitsVal (cs : List Char) : Nat :=
  cs.foldl (fun a c => a * 10 + (c.toNat - 48)) 0

/-- `some` of the value of a non-empty all-digit list, else `none`. -/
def digitsVal? (cs : List Char) : Option Nat :=
  if cs ≠ [] ∧ cs.all Char.isDigit then some (digitsVal cs) else none

/-- Go `strconv.ParseFloat` restricted to the plain decimal forms the
repository's data uses (optional sign, integer digits, optional fraction
digits): the parsed value as an exact rational, or `none` on any input
`ParseFloat` would reject among those forms. Exponent, hex-float and
infinity syntax, which `ParseFloat` also accepts, carry no claim here and
are not modelled. -/
def parseFloat? (s : String) : Option ℚ :=
  let signedDigits : ℚ × List Char :=
    match s.data with
    | '-' :: rest => (-1, rest)
    | '+' :: rest => (1, rest)
    | cs => (1, cs)
  match signedDigits.2.splitOn '.' with
  | [ip] => (digitsVal? ip).map (fun n => signedDigits.1 * n)
  | [ip, fp] =>
    if ip.isEmpty ∧ fp.isEmpty then none
    else if ip.all Char.isDigit ∧ fp.all Char.isDigit then
      some (signedDigits.1 * mkRat (Int.ofNat (digitsVal ip * 10 ^ fp.length + digitsVal fp)) (10 ^ fp.length))
    else none
  | _ => none

/-- Two-digit zero-padded decimal rendering of a (month / day) number. -/
def pad2 (n : Nat) : String :=
  if n < 10 then "0" ++ toString n else toString n

/-- Go `t.Format("2006-01-02")` on a calendar day. -/
def formatDate2006 (d : Date) : String :=
  toString d.year ++ "-" ++ pad2 d.month ++ "-" ++ pad2 d.day

/-- Whether ten characters spell a zero-padded `YYYY<sep>MM<sep>DD` date with
month `01`-`12` and day `01`-`31` (Go's `time.Parse` additionally checks the
day against the month's length; no claim depends on that refinement). -/
def dateCandidate (sep : Char) (cs : List Char) : Bool :=
  match cs with
  | [y1, y2, y3, y4, c1, m1, m2, c2, d1, d2] =>
    y1.isDigit && y2.isDigit && y3.isDigit && y4.isDigit &&
    c1 == sep && c2 == sep && m1.isDigit && m2.isDigit && d1.isDigit && d2.isDigit &&
    (let m := (m1.toNat - 48) * 10 + (m2.toNat - 48)
     let d := (d1.toNat - 48) * 10 + (d2.toNat - 48)
     decide (1 ≤ m) && decide (m ≤ 12) && decide (1 ≤ d) && decide (d ≤ 31))
  | _ => false

/-- Slashes replaced by dashes (canonicalising `YYYY/MM/DD`). -/
def slashToDash (cs : List Char) : List Char :=
  cs.map (fun c => if c == '/' then '-' else c)

/-- Go `normalizeSummaryDate`: trims the raw date, accepts the layouts
`2006-01-02`, `2006/01/02`, the same with a time-of-day suffix, and the
RFC3339 forms (all of which begin with a ten-character date), and returns the
canonical `YYYY-MM-DD` string, or `""` when nothing matches. The embedding
covers the zero-padded dates these layouts produce; `time.Parse`'s leniency
toward unpadded month/day, exercised by no claim, is not modelled. -/
def normalizeSummaryDate (raw : String) : String :=
  let cs := goTrimSpaceList raw.data
  if cs.isEmpty then ""
  else if dateCandidate '-' cs then cs.asString
  else if dateCandidate '/' cs then (slashToDash cs).asString
  else if 10 ≤ cs.length then
    let candidate := cs.take 10
    if dateCandidate '-' candidate then candidate.asString
    else if dateCandidate '/' candidate then (slashToDash candidate).asString
    else ""
  else ""

/-! ## Ledger store: `MongoUpstreamBalanceRepository` -/

/-- The `FindOne` on `upstream_balances` by `chat_id`. -/
def findBalance (s : Store) (chatID : Int) : Option UpstreamBalance :=
  s.balances.find? (fun b => b.ChatID == chatID)

/-- The balance of `chatID` in `s`, `0` when no record exists (the caller's
reading of an absent record, spec section 4.1). -/
def balanceOf (s : Store) (chatID : Int) : ℚ :=
  match findBalance s chatID with
  | some b => b.Balance
  | none => 0

/-- The threshold of `chatID` in `s`, `0` when no record exists. -/
def minBalanceOf (s : Store) (chatID : Int) : ℚ :=
  match findBalance s chatID with
  | some b => b.MinBalance
  | none => 0

/-- The alert limit of `chatID` in `s`, `0` when no record exists. -/
def alertLimitOf (s : Store) (chatID : Int) : Int :=
  match findBalance s chatID with
  | some b => b.AlertLimitPerHour
  | none => 0

/-- Upsert of one record into the `upstream_balances` collection: replaces
the record with the same `ChatID`, or appends (`SetUpsert(true)` +
the unique `chat_id` index). -/
def storeBalance : List UpstreamBalance → UpstreamBalance → List UpstreamBalance
  | [], rec => [rec]
  | b :: rest, rec => if b.ChatID == rec.ChatID then rec :: rest else b :: storeBalance rest rec

namespace MongoUpstreamBalanceRepository

/-- `GetBalance`: the record, or `none` on `mongo.ErrNoDocuments`. -/
def GetBalance (s : Store) (chatID : Int) : Option UpstreamBalance :=
  findBalance s chatID

/-- The duplicate check of `AdjustBalance`: whether `upstream_balance_logs`
holds an entry with this `(chat_id, operation_id)` pair. -/
def hasOperationLog (s : Store) (chatID : Int) (operationID : String) : Bool :=
  s.logs.any (fun l => l.ChatID == chatID && l.OperationID == operationID)

/-- The record after the `FindOneAndUpdate` upsert of `AdjustBalance`:
`$inc balance by delta`, `$setOnInsert` zero thresholds. -/
def adjustedRecord (s : Store) (chatID : Int) (delta : ℚ) : UpstreamBalance :=
  match findBalance s chatID with
  | some b0 => { b0 with Balance := b0.Balance + delta }
  | none => { ChatID := chatID, Balance := delta, MinBalance := 0, AlertLimitPerHour := 0 }

/-- The log entry `AdjustBalance` inserts (its `BalanceAfter` snapshots the
post-upsert balance). -/
def adjustLogEntry (s : Store) (chatID userID : Int) (delta : ℚ)
    (entryType remark operationID : String) : UpstreamBalanceLog :=
  { ChatID := chatID, UserID := userID, Delta := delta,
    BalanceAfter := (adjustedRecord s chatID delta).Balance,
    entryType := entryType, Remark := remark, OperationID := operationID }

/-- The write path of `AdjustBalance`'s transaction: upsert the balance and
append the log entry (lines 81-120 of `upstream_balance.go`). -/
def applyAdjust (s : Store) (chatID userID : Int) (delta : ℚ)
    (entryType remark operationID : String) : UpstreamBalance × Store :=
  (adjustedRecord s chatID delta,
   { balances := storeBalance s.balances (adjustedRecord s chatID delta),
     logs := s.logs ++ [adjustLogEntry s chatID userID delta entryType remark operationID] })

/-- `AdjustBalance`: inside one transaction, when `operationID` is non-empty
and a log entry with the same `(chat_id, operation_id)` already exists, the
current record is returned unchanged (the `errOperationAlreadyApplied`
sentinel, resolved to a plain success by the caller at lines 123-126) — and
it is an error for such a log to exist without a balance record; otherwise
the balance is upserted with the delta and one log entry is appended. -/
def AdjustBalance (s : Store) (chatID userID : Int) (delta : ℚ)
    (entryType remark operationID : String) : Except String (UpstreamBalance × Store) :=
  if operationID != "" && hasOperationLog s chatID operationID then
    match findBalance s chatID with
    | some balance => .ok (balance, s)
    | none => .error "balance not found for existing operation"
  else
    .ok (applyAdjust s chatID userID delta entryType remark operationID)

/-- `SetMinBalance`: upsert `$set min_balance`, `$setOnInsert` zero balance
and alert limit; returns the post-update record. -/
def SetMinBalance (s : Store) (chatID : Int) (min : ℚ) : UpstreamBalance × Store :=
  let rec0 : UpstreamBalance :=
    match findBalance s chatID with
    | some b0 => { b0 with MinBalance := min }
    | none => { ChatID := chatID, Balance := 0, MinBalance := min, AlertLimitPerHour := 0 }
  (rec0, { s with balances := storeBalance s.balances rec0 })

/-- `SetAlertLimit`: upsert `$set alert_limit_per_hour`, `$setOnInsert` zero
balance and threshold; returns the post-update record. -/
def SetAlertLimit (s : Store) (chatID : Int) (limit : Int) : UpstreamBalance × Store :=
  let rec0 : UpstreamBalance :=
    match findBalance s chatID with
    | some b0 => { b0 with AlertLimitPerHour := limit }
    | none => { ChatID := chatID, Balance := 0, MinBalance := 0, AlertLimitPerHour := limit }
  (rec0, { s with balances := storeBalance s.balances rec0 })

/-- `ListBalances`. -/
def ListBalances (s : Store) : List UpstreamBalance :=
  s.balances

end MongoUpstreamBalanceRepository

/-! ## Balance service: `upstreamBalanceService` (internal/telegram/service) -/

def upstreamLogTypeManualAdd : String := "manual_add"

def upstreamLogTypeManualSubtract : String := "manual_subtract"

def upstreamLogTypeDaily : String := "daily_settlement"

def upstreamLogTypeThreshold : String := "set_min_balance"

/-- Go `fmt.Sprintf("%.2f", x)` for the values the service formats into
remarks: the amount rounded to two decimals and rendered with exactly two
fraction digits (`%.2f`'s tie-breaking rounds half to even; `round` here
rounds half up — no claim touches a tie). -/
def format2 (x : ℚ) : String :=
  let n : Int := round (x * 100)
  (if n < 0 then "-" else "") ++ toString (n.natAbs / 100) ++ "." ++
    (if n.natAbs % 100 < 10 then "0" else "") ++ toString (n.natAbs % 100)

/-- Go `parseRatePercent`: trim, drop one trailing `%`, empty means `0`,
unparsable means `0` (with a logged warning), else the parsed value. -/
def parseRatePercent (rate : String) : ℚ :=
  let clean := goTrimPercent (goTrimSpace rate)
  if clean = "" then 0
  else
    match parseFloat? clean with
    | some value => value
    | none => 0

/-- The matching loop of Go `parseAmountFromSummary`: skip items whose
normalized date differs from the target day; at the first matching item
return its parsed gross amount, or `0` when that amount does not parse. -/
def amountForDate : List SummaryItem → String → ℚ
  | [], _ => 0
  | item :: rest, dateStr =>
    if normalizeSummaryDate item.Date == dateStr then
      match parseFloat? (goTrimSpace item.GrossAmount) with
      | some amount => amount
      | none => 0
    else amountForDate rest dateStr

/-- Go `parseAmountFromSummary`: `0` for a `nil` summary or when no item
matches the target day. -/
def parseAmountFromSummary (summary : Option SummaryByPZID) (targetDate : Date) : ℚ :=
  match summary with
  | none => 0
  | some su => amountForDate su.Items (formatDate2006 targetDate)

/-- The external billing collaborator `paymentService.GetSummaryByDayByPZID`
as the settlement run sees it: per interface ID, either the (possibly `nil`)
summary for the run's fixed `[targetDate 00:00:00, targetDate 23:59:59]`
range or an error. -/
abbrev Billing : Type := String → Except String (Option SummaryByPZID)

namespace upstreamBalanceService

/-- Go `shouldWarn`: `false` for a missing record or an unset threshold,
else whether the balance is below the threshold. -/
def shouldWarn (balance : Option UpstreamBalance) : Bool :=
  match balance with
  | none => false
  | some b => if b.MinBalance ≤ 0 then false else decide (b.Balance < b.MinBalance)

/-- Go `adjust` (service): a zero delta is a pure read returning the current
record and its warning flag; otherwise one repository `AdjustBalance` with
empty remark — the call site supplies no operation id, so the duplicate
check never fires for manual adjustments. -/
def adjust (s : Store) (chatID userID : Int) (delta : ℚ) (entryType : String) :
    Except String (Option UpstreamBalance × Bool) × Store :=
  if delta = 0 then
    (.ok (MongoUpstreamBalanceRepository.GetBalance s chatID,
          shouldWarn (MongoUpstreamBalanceRepository.GetBalance s chatID)), s)
  else
    match MongoUpstreamBalanceRepository.AdjustBalance s chatID userID delta entryType "" "" with
    | .ok (updated, s') => (.ok (some updated, shouldWarn (some updated)), s')
    | .error e => (.error e, s)

/-- Go `Add`. -/
def Add (s : Store) (chatID userID : Int) (amount : ℚ) :
    Except String (Option UpstreamBalance × Bool) × Store :=
  adjust s chatID userID amount upstreamLogTypeManualAdd

/-- Go `Subtract` (`-math.Abs(amount)`). -/
def Subtract (s : Store) (chatID userID : Int) (amount : ℚ) :
    Except String (Option UpstreamBalance × Bool) × Store :=
  adjust s chatID userID (-abs amount) upstreamLogTypeManualSubtract

/-- Go `Get`. -/
def Get (s : Store) (chatID : Int) : Option UpstreamBalance :=
  MongoUpstreamBalanceRepository.GetBalance s chatID

/-- Go service `SetMinBalance`: persists the threshold through the
repository, then appends the zero-delta audit entry of type
`set_min_balance` via `AdjustBalance` (actor 0, no operation id; its error,
if any, is discarded), and returns the repository's updated record. -/
def SetMinBalance (s : Store) (chatID : Int) (min : ℚ) : UpstreamBalance × Store :=
  let upd := MongoUpstreamBalanceRepository.SetMinBalance s chatID min
  let s2 : Store :=
    match MongoUpstreamBalanceRepository.AdjustBalance upd.2 chatID 0 0 upstreamLogTypeThreshold
        ("set_min_balance=" ++ format2 min) "" with
    | .ok (_, s') => s'
    | .error _ => upd.2
  (upd.1, s2)

/-- Go `settleBinding`: query the billing collaborator for the binding's
summary (an error is wrapped and aborts), then compute the item with
`deduction = grossAmount * rate / 100`. -/
def settleBinding (billing : Billing) (binding : InterfaceBinding) (targetDate : Date) :
    Except String UpstreamSettlementItem :=
  match billing binding.ID with
  | .error e => .error ("查询接口 " ++ binding.ID ++ " 账单失败: " ++ e)
  | .ok summary =>
    let grossAmount := parseAmountFromSummary summary targetDate
    let rate := parseRatePercent binding.Rate
    .ok { InterfaceID := binding.ID, InterfaceName := binding.Name, RatePercent := rate,
          GrossAmount := grossAmount, Deduction := grossAmount * rate / 100 }

/-- The binding loop of Go `SettleDaily`: settle each binding in order,
aborting on the first error. -/
def settleBindings (billing : Billing) (targetDate : Date) :
    List InterfaceBinding → Except String (List UpstreamSettlementItem)
  | [] => .ok []
  | binding :: rest =>
    match settleBinding billing binding targetDate with
    | .error e => .error e
    | .ok item =>
      match settleBindings billing targetDate rest with
      | .error e => .error e
      | .ok items => .ok (item :: items)

/-- Go `SettleDaily`: fails on an empty binding list; computes every
binding's item (any billing failure aborts before the ledger is touched);
then applies the one ledger debit of the negative total deduction, type
`daily_settlement`, remark the formatted target date, and no operation id.
The pair's second component is the store after the call: it equals the input
store whenever the call returns an error, because the single `AdjustBalance`
at the end is the only write. -/
def SettleDaily (billing : Billing) (s : Store) (group : models.Group) (targetDate : Date) :
    Except String SettlementResult × Store :=
  if group.Settings.InterfaceBindings = [] then (.error "当前群未绑定任何接口", s)
  else
    match settleBindings billing targetDate group.Settings.InterfaceBindings with
    | .error e => (.error e, s)
    | .ok items =>
      let totalDeduction := (items.map (fun item => item.Deduction)).sum
      match MongoUpstreamBalanceRepository.AdjustBalance s group.TelegramID 0 (-totalDeduction)
          upstreamLogTypeDaily (formatDate2006 targetDate) "" with
      | .error e => (.error e, s)
      | .ok (balance, s') =>
        (.ok { Balance := balance, Items := items, Deduction := totalDeduction,
               Target := targetDate }, s')

/-- Modelled from the spec: the service-level `SetAlertLimit` the bot's
handler (`handleUpstreamAlertLimit`) and service interface use is not among
the repository files at hand — only its callers and the repository-level
`SetAlertLimit` are. Per spec section 4.1 it persists the field and appends
a zero-delta threshold-change ledger entry "using upsert semantics identical
to `Adjust`", mirroring the service-level `SetMinBalance` above. -/
def SetAlertLimit (s : Store) (chatID userID : Int) (limit : Int) : UpstreamBalance × Store :=
  let upd := MongoUpstreamBalanceRepository.SetAlertLimit s chatID limit
  let s2 : Store :=
    match MongoUpstreamBalanceRepository.AdjustBalance upd.2 chatID userID 0 upstreamLogTypeThreshold
        ("set_alert_limit=" ++ toString limit) "" with
    | .ok (_, s') => s'
    | .error _ => upd.2
  (upd.1, s2)

end upstreamBalanceService

/-! ## Balance-change publication (spec section 4.1 side effect) -/

/-- Modelled from the spec: the balance-change stream (`BalanceChanges`)
that the watcher subscribes to in `newUpstreamBalanceWatcher` is declared
and consumed in the files at hand but its publishing side is not among them.
Per spec sections 4.1 and 9 it is a bounded buffer written fire-and-forget:
a publish never blocks — when the buffer is full the event is dropped and
the periodic scan is the backstop. -/
structure BalanceChangeQueue where
  capacity : Nat
  events : List UpstreamBalance
deriving DecidableEq

/-- Modelled from the spec: non-blocking best-effort publication — enqueue
when the buffer has room, drop the event otherwise; never an error. -/
def publishBalanceChange (q : BalanceChangeQueue) (b : UpstreamBalance) : BalanceChangeQueue :=
  if q.events.length < q.capacity then { q with events := q.events ++ [b] } else q

/-- Modelled from the spec: the store-level `Adjust` with its balance-change
publication side effect. Spec section 4.1 attaches publication to EVERY
successful store `Adjust` — manual credits/debits and settlement debits
alike — with the idempotent no-op re-resolution (the duplicate-operation
short circuit) exempt; a failed transaction publishes nothing. The updated
record is offered to the watcher's stream after the write. -/
def AdjustBalanceAndPublish (s : Store) (q : BalanceChangeQueue) (chatID userID : Int)
    (delta : ℚ) (entryType remark operationID : String) :
    Except String (UpstreamBalance × Store) × BalanceChangeQueue :=
  let res := MongoUpstreamBalanceRepository.AdjustBalance s chatID userID delta
    entryType remark operationID
  if operationID != "" && MongoUpstreamBalanceRepository.hasOperationLog s chatID operationID then
    (res, q)
  else
    match res with
    | .ok x => (res, publishBalanceChange q x.1)
    | .error _ => (res, q)

/-- Modelled from the spec: the manual adjustment path (service `adjust`,
hence `Add`/`Subtract`) with its single repository write routed through the
publishing store `Adjust`; the zero-delta read performs no write and
publishes nothing. -/
def adjustWithPublish (s : Store) (q : BalanceChangeQueue) (chatID userID : Int)
    (delta : ℚ) (entryType : String) :
    (Except String (Option UpstreamBalance × Bool) × Store) × BalanceChangeQueue :=
  if delta = 0 then
    ((.ok (MongoUpstreamBalanceRepository.GetBalance s chatID,
           upstreamBalanceService.shouldWarn (MongoUpstreamBalanceRepository.GetBalance s chatID)),
      s), q)
  else
    let w := AdjustBalanceAndPublish s q chatID userID delta entryType "" ""
    match w.1 with
    | .ok x => ((.ok (some x.1, upstreamBalanceService.shouldWarn (some x.1)), x.2), w.2)
    | .error e => ((.error e, s), w.2)

/-- Modelled from the spec: the settlement path (`SettleDaily`) with its
single ledger debit routed through the publishing store `Adjust`: the
daily-settlement write, like every other successful store `Adjust`,
publishes the post-settlement record; error paths reach no write and
publish nothing. -/
def SettleDailyWithPublish (billing : Billing) (s : Store) (q : BalanceChangeQueue)
    (group : models.Group) (targetDate : Date) :
    (Except String SettlementResult × Store) × BalanceChangeQueue :=
  if group.Settings.InterfaceBindings = [] then ((.error "当前群未绑定任何接口", s), q)
  else
    match upstreamBalanceService.settleBindings billing targetDate
        group.Settings.InterfaceBindings with
    | .error e => ((.error e, s), q)
    | .ok items =>
      let totalDeduction := (items.map (fun item => item.Deduction)).sum
      let w := AdjustBalanceAndPublish s q group.TelegramID 0 (-totalDeduction)
        upstreamLogTypeDaily (formatDate2006 targetDate) ""
      match w.1 with
      | .error e => ((.error e, s), w.2)
      | .ok x =>
        ((.ok { Balance := x.1, Items := items, Deduction := totalDeduction,
                Target := targetDate }, x.2), w.2)

/-! ## Balance watcher: `upstreamBalanceWatcher` -/

namespace upstreamBalanceWatcher

def defaultAlertLimitPerHour : Int := 3

/-- One hour, in the second-granularity instants the embedding uses for
`time.Time` observation timestamps. -/
def hourTicks : Int := 3600

/-- Go `balanceAlertState`: the per-chat alert state. `windowStart = none`
models the zero `time.Time` (`IsZero`). -/
structure balanceAlertState where
  low : Bool
  windowStart : Option Int
  sentCount : Int
deriving DecidableEq

/-- The watcher's `states` map (`map[int64]*balanceAlertState`). -/
abbrev WatcherStates : Type := List (Int × balanceAlertState)

def lookupState (states : WatcherStates) (chatID : Int) : Option balanceAlertState :=
  (states.find? (fun p => p.1 == chatID)).map (fun p => p.2)

def saveState : WatcherStates → Int → balanceAlertState → WatcherStates
  | [], chatID, st => [(chatID, st)]
  | p :: rest, chatID, st =>
    if p.1 == chatID then (chatID, st) :: rest else p :: saveState rest chatID st

/-- Lines 132-136 of the watcher: reset the rate-limit window when it was
never started (`IsZero`) or started at least an hour before `now`. -/
def resetWindow (st : balanceAlertState) (now : Int) : balanceAlertState :=
  match st.windowStart with
  | none => { st with windowStart := some now, sentCount := 0 }
  | some ws =>
    if hourTicks ≤ now - ws then { st with windowStart := some now, sentCount := 0 } else st

/-- Lines 149-152 of the watcher: the configured per-hour limit, with the
default when unset or non-positive. -/
def alertLimitFor (balance : UpstreamBalance) : Int :=
  if balance.AlertLimitPerHour ≤ 0 then defaultAlertLimitPerHour else balance.AlertLimitPerHour

/-- Go `evaluateBalance` as a state transition: the new states map and
whether a low-balance alert is sent for this observation.  Monitoring is
off for a non-positive threshold; otherwise the (possibly fresh) state has
its window reset when due, and then: a non-low balance clears the low flag
with no alert; a low balance with the flag already set is suppressed; an
`ok → low` transition with the window's sent count at or above the limit is
dropped — note the code returns before `state.low` is set on this path; and
otherwise the flag is set, the count incremented, and the alert sent. -/
def evaluateBalance (states : WatcherStates) (now : Int) (balance : UpstreamBalance) :
    WatcherStates × Bool :=
  if balance.MinBalance ≤ 0 then (states, false)
  else
    let low : Bool := decide (balance.Balance < balance.MinBalance)
    let st0 := (lookupState states balance.ChatID).getD
      { low := false, windowStart := none, sentCount := 0 }
    let st1 := resetWindow st0 now
    if low = false then (saveState states balance.ChatID { st1 with low := false }, false)
    else if st1.low then (saveState states balance.ChatID st1, false)
    else if alertLimitFor balance ≤ st1.sentCount then
      (saveState states balance.ChatID st1, false)
    else
      (saveState states balance.ChatID { st1 with low := true, sentCount := st1.sentCount + 1 },
       true)

/-- A sequence of observations (each an instant and the observed record),
fed through `evaluateBalance` in order — the common path of the change
stream and the periodic scan.  Returns the final states map and the per-
observation alert flags. -/
def runWatcher (states : WatcherStates) : List (Int × UpstreamBalance) → WatcherStates × List Bool
  | [] => (states, [])
  | (now, balance) :: rest =>
    let step := evaluateBalance states now balance
    let further := runWatcher step.1 rest
    (further.1, step.2 :: further.2)

end upstreamBalanceWatcher

/-! ## The retried-caller sequence of claim C1 -/

/-- One adjustment request of a retried caller: everything but the shared
`(chatID, operationID)` pair may vary between retries. -/
structure AdjustReq where
  userID : Int
  delta : ℚ
  entryType : String
  remark : String
deriving DecidableEq

/-- A sequence of `AdjustBalance` calls sharing one `(chatID, operationID)`
pair, applied in order against the evolving store; a failed call leaves the
store unchanged, as the aborted transaction does. -/
def adjustMany (chatID : Int) (operationID : String) : Store → List AdjustReq → Store
  | s, [] => s
  | s, rq :: rest =>
    match MongoUpstreamBalanceRepository.AdjustBalance s chatID rq.userID rq.delta
        rq.entryType rq.remark operationID with
    | .ok x => adjustMany chatID operationID x.2 rest
    | .error _ => adjustMany chatID operationID s rest

/-! ## Concrete instances for the witnesses and counterexamples -/

def c1Store : Store := ⟨[], []⟩

def c1Rec : UpstreamBalance := ⟨1, 5, 0, 0⟩

def c1After : Store := ⟨[c1Rec], [⟨1, 2, 5, 5, upstreamLogTypeManualAdd, "topup", "d1"⟩]⟩

def c2Date : Date := ⟨2024, 5, 1⟩

def c2Group : models.Group := ⟨7, ⟨[⟨"ifa", "A", "2%"⟩, ⟨"ifb", "B", "3%"⟩]⟩⟩

def c2Store : Store := ⟨[⟨7, 100, 0, 0⟩], []⟩

def c2Billing : Billing := fun interfaceID =>
  if interfaceID = "ifa" then .ok (some ⟨[⟨"2024-05-01", "500"⟩]⟩) else .error "billing down"

def c3Bal (x : ℚ) : UpstreamBalance := ⟨1, x, 100, 1⟩

def c3Obs : List (Int × UpstreamBalance) := [(0, c3Bal 80), (0, c3Bal 120), (0, c3Bal 70)]

def c3States : upstreamBalanceWatcher.WatcherStates := [(1, ⟨false, some 0, 1⟩)]

def c4Date : Date := ⟨2024, 5, 1⟩

def c4Group : models.Group := ⟨9, ⟨[⟨"x", "X", "10%"⟩]⟩⟩

def c4Store : Store := ⟨[⟨9, 100, 0, 0⟩], []⟩

def c4Billing : Billing := fun _ => .ok (some ⟨[⟨"2024-05-01", "200"⟩]⟩)

def c4Items : List UpstreamSettlementItem := [⟨"x", "X", 10, 200, 20⟩]

def c4R1 : SettlementResult := ⟨⟨9, 80, 0, 0⟩, c4Items, 20, c4Date⟩

def c4S1 : Store :=
  ⟨[⟨9, 80, 0, 0⟩], [⟨9, 0, -20, 80, upstreamLogTypeDaily, "2024-05-01", ""⟩]⟩

def c4R2 : SettlementResult := ⟨⟨9, 60, 0, 0⟩, c4Items, 20, c4Date⟩

def c4S2 : Store :=
  ⟨[⟨9, 60, 0, 0⟩], [⟨9, 0, -20, 80, upstreamLogTypeDaily, "2024-05-01", ""⟩,
                     ⟨9, 0, -20, 60, upstreamLogTypeDaily, "2024-05-01", ""⟩]⟩

def c5Date : Date := ⟨2024, 5, 1⟩

def c5Group : models.Group := ⟨1001, ⟨[⟨"if1", "A", "2%"⟩, ⟨"if2", "B", "1.5%"⟩]⟩⟩

def c5Store : Store := ⟨[], []⟩

def c5Billing : Billing := fun interfaceID =>
  if interfaceID = "if1" then .ok (some ⟨[⟨"2024-05-01", "1000"⟩]⟩)
  else if interfaceID = "if2" then .ok (some ⟨[⟨"2024-05-01", "2000"⟩]⟩)
  else .error "unknown interface"

def c5Result : SettlementResult :=
  ⟨⟨1001, -50, 0, 0⟩, [⟨"if1", "A", 2, 1000, 20⟩, ⟨"if2", "B", 1.5, 2000, 30⟩], 50, c5Date⟩

def c5After : Store :=
  ⟨[⟨1001, -50, 0, 0⟩], [⟨1001, 0, -50, -50, upstreamLogTypeDaily, "2024-05-01", ""⟩]⟩

def c6Bal (x : ℚ) : UpstreamBalance := ⟨1, x, 100, 2⟩

def c6Obs : List (Int × UpstreamBalance) :=
  [(0, c6Bal 150), (0, c6Bal 80), (0, c6Bal 90), (0, c6Bal 60)]

def c7Store : Store := ⟨[], []⟩

def c7Queue : BalanceChangeQueue := ⟨8, []⟩

def c7Rec : UpstreamBalance := ⟨1, 5, 0, 0⟩

def c7After : Store := ⟨[c7Rec], [⟨1, 2, 5, 5, upstreamLogTypeManualAdd, "", ""⟩]⟩

def c7Group : models.Group := ⟨1, ⟨[⟨"p1", "P", "10%"⟩]⟩⟩

def c7Billing : Billing := fun _ => .ok (some ⟨[⟨"2024-05-01", "300"⟩]⟩)

def c7Date : Date := ⟨2024, 5, 1⟩

def c7SettleRec : UpstreamBalance := ⟨1, -30, 0, 0⟩

def c7SettleResult : SettlementResult := ⟨c7SettleRec, [⟨"p1", "P", 10, 300, 30⟩], 30, c7Date⟩

def c7SettleAfter : Store :=
  ⟨[c7SettleRec], [⟨1, 0, -30, -30, upstreamLogTypeDaily, "2024-05-01", ""⟩]⟩

def c8Store : Store := ⟨[⟨3, 42, 7, 2⟩], []⟩

def c10Binding : InterfaceBinding := ⟨"ifz", "Z", "abc"⟩

def c10Date : Date := ⟨2024, 5, 1⟩

def c10Summary : SummaryByPZID := ⟨[⟨"2024-05-01", "oops"⟩]⟩

def c10Billing : Billing := fun _ => .ok (some c10Summary)

/-! ## Helper lemmas -/

theorem find?_storeBalance (rec : UpstreamBalance) (c : Int) (h : rec.ChatID = c) :
    ∀ l : List UpstreamBalance,
      List.find? (fun b => b.ChatID == c) (storeBalance l rec) = some rec := by
  intro l
  induction l with
  | nil => simp [storeBalance, List.find?, h]
  | cons b rest ih =>
    by_cases hb : (b.ChatID == rec.ChatID) = true
    · simp only [storeBalance, hb, if_true]
      have : (rec.ChatID == c) = true := by simp [h]
      simp [List.find?, this]
    · simp only [storeBalance, hb, if_false, Bool.false_eq_true]
      have hbc : (b.ChatID == c) = false := by
        subst h
        simpa using hb
      rw [List.find?_cons_of_neg _ (by simp [hbc]), ih]

theorem findBalance_some_chatID {s : Store} {c : Int} {b : UpstreamBalance}
    (h : findBalance s c = some b) : b.ChatID = c := by
  have := List.find?_some h
  simpa using this

namespace MongoUpstreamBalanceRepository

theorem adjustedRecord_ChatID (s : Store) (c : Int) (δ : ℚ) :
    (adjustedRecord s c δ).ChatID = c := by
  unfold adjustedRecord
  cases hfb : findBalance s c with
  | none => rfl
  | some b0 => simpa using findBalance_some_chatID hfb

theorem adjustedRecord_Balance (s : Store) (c : Int) (δ : ℚ) :
    (adjustedRecord s c δ).Balance = balanceOf s c + δ := by
  unfold adjustedRecord balanceOf
  cases hfb : findBalance s c with
  | none => simp
  | some b0 => rfl

theorem adjustedRecord_MinBalance (s : Store) (c : Int) (δ : ℚ) :
    (adjustedRecord s c δ).MinBalance = minBalanceOf s c := by
  unfold adjustedRecord minBalanceOf
  cases hfb : findBalance s c with
  | none => rfl
  | some b0 => rfl

theorem adjustedRecord_Alert (s : Store) (c : Int) (δ : ℚ) :
    (adjustedRecord s c δ).AlertLimitPerHour = alertLimitOf s c := by
  unfold adjustedRecord alertLimitOf
  cases hfb : findBalance s c with
  | none => rfl
  | some b0 => rfl

theorem findBalance_applyAdjust (s : Store) (c u : Int) (δ : ℚ) (t r op : String) :
    findBalance (applyAdjust s c u δ t r op).2 c = some (adjustedRecord s c δ) := by
  unfold applyAdjust findBalance
  exact find?_storeBalance _ c (adjustedRecord_ChatID s c δ) _

theorem logs_applyAdjust (s : Store) (c u : Int) (δ : ℚ) (t r op : String) :
    (applyAdjust s c u δ t r op).2.logs = s.logs ++ [adjustLogEntry s c u δ t r op] := rfl

theorem hasOperationLog_applyAdjust (s : Store) (c u : Int) (δ : ℚ) (t r op : String) :
    hasOperationLog (applyAdjust s c u δ t r op).2 c op = true := by
  unfold hasOperationLog applyAdjust adjustLogEntry
  simp

theorem balanceOf_applyAdjust (s : Store) (c u : Int) (δ : ℚ) (t r op : String) :
    balanceOf (applyAdjust s c u δ t r op).2 c = balanceOf s c + δ := by
  unfold balanceOf
  rw [findBalance_applyAdjust]
  exact adjustedRecord_Balance s c δ

theorem AdjustBalance_write (s : Store) (c u : Int) (δ : ℚ) (t r op : String)
    (h : (op != "" && hasOperationLog s c op) = false) :
    AdjustBalance s c u δ t r op = .ok (applyAdjust s c u δ t r op) := by
  unfold AdjustBalance
  rw [if_neg (by simp [h])]

theorem AdjustBalance_op_empty (s : Store) (c u : Int) (δ : ℚ) (t r : String) :
    AdjustBalance s c u δ t r "" = .ok (applyAdjust s c u δ t r "") := by
  apply AdjustBalance_write
  simp

end MongoUpstreamBalanceRepository

open MongoUpstreamBalanceRepository

/-! ## Claims -/

/-- C1: for every entity and non-empty `operationID`, once an
`AdjustBalance` call with that `(entityID, operationID)` pair has been
applied (returned `.ok`), any later `AdjustBalance` call for the same pair —
whatever its delta, actor, type or remark — is a no-op returning the same
record and leaving the store (balance and ledger both) unchanged; hence any
sequence of further adjustments sharing that `operationID` leaves the final
balance and ledger-entry count at the single-application outcome. -/
theorem upstream_C1_adjust_idempotent
    (s : Store) (e u : Int) (δ : ℚ) (t r op : String) (b : UpstreamBalance) (s₁ : Store)
    (hop : op ≠ "")
    (h1 : AdjustBalance s e u δ t r op = .ok (b, s₁)) :
    (∀ u' δ' t' r', AdjustBalance s₁ e u' δ' t' r' op = .ok (b, s₁)) ∧
    (∀ reqs, adjustMany e op s₁ reqs = s₁) := by
  have hopb : (op != "") = true := bne_iff_ne.mpr hop
  have key : ∀ u' δ' t' r', AdjustBalance s₁ e u' δ' t' r' op = .ok (b, s₁) := by
    intro u' δ' t' r'
    cases hlog : hasOperationLog s e op with
    | true =>
      have hc : (op != "" && hasOperationLog s e op) = true := by rw [hopb, hlog]; rfl
      unfold AdjustBalance at h1
      rw [if_pos hc] at h1
      cases hfb : findBalance s e with
      | none => rw [hfb] at h1; simp at h1
      | some bal =>
        rw [hfb] at h1
        obtain ⟨hb, hs⟩ : bal = b ∧ s = s₁ := by simpa using h1
        subst hb; subst hs
        unfold AdjustBalance
        rw [if_pos hc, hfb]
    | false =>
      have hc : (op != "" && hasOperationLog s e op) = false := by rw [hlog]; simp
      have heq : applyAdjust s e u δ t r op = (b, s₁) := by
        have h1' := AdjustBalance_write s e u δ t r op hc
        rw [h1'] at h1
        simpa using h1
      have hs : (applyAdjust s e u δ t r op).2 = s₁ := congrArg Prod.snd heq
      have hb' : adjustedRecord s e δ = b := congrArg Prod.fst heq
      have hlog1 : hasOperationLog s₁ e op = true := by
        rw [← hs]; exact hasOperationLog_applyAdjust s e u δ t r op
      have hfb1 : findBalance s₁ e = some b := by
        rw [← hs, findBalance_applyAdjust, hb']
      unfold AdjustBalance
      rw [if_pos (by rw [hopb, hlog1]; rfl), hfb1]
  refine ⟨key, ?_⟩
  intro reqs
  induction reqs with
  | nil => rfl
  | cons rq rest ih =>
    show adjustMany e op s₁ (rq :: rest) = s₁
    unfold adjustMany
    rw [key rq.userID rq.delta rq.entryType rq.remark]
    exact ih

/-- C1 witness: a top-up of 5 under operation id `d1` on the empty store,
followed by a replayed call with a different actor, delta, type and remark
(a no-op returning the same record and store) and by a two-element retry
sequence (leaving the store untouched). -/
theorem upstream_C1_witness :
    AdjustBalance c1Store 1 2 5 upstreamLogTypeManualAdd "topup" "d1" = .ok (c1Rec, c1After) ∧
    AdjustBalance c1After 1 9 (-3) upstreamLogTypeManualSubtract "retry" "d1" =
      .ok (c1Rec, c1After) ∧
    adjustMany 1 "d1" c1After
      [⟨9, -3, upstreamLogTypeManualSubtract, "retry"⟩,
       ⟨2, 5, upstreamLogTypeManualAdd, "again"⟩] = c1After :=
  ⟨by decide,
   (upstream_C1_adjust_idempotent c1Store 1 2 5 upstreamLogTypeManualAdd "topup" "d1"
      c1Rec c1After (by decide) (by decide)).1 9 (-3) upstreamLogTypeManualSubtract "retry",
   (upstream_C1_adjust_idempotent c1Store 1 2 5 upstreamLogTypeManualAdd "topup" "d1"
      c1Rec c1After (by decide) (by decide)).2
     [⟨9, -3, upstreamLogTypeManualSubtract, "retry"⟩,
      ⟨2, 5, upstreamLogTypeManualAdd, "again"⟩]⟩

theorem settleBindings_error_of_mem (billing : Billing) (d : Date)
    (bindings : List InterfaceBinding) (bd : InterfaceBinding) (m : String)
    (hmem : bd ∈ bindings) (hfail : billing bd.ID = .error m) :
    ∃ m', upstreamBalanceService.settleBindings billing d bindings = .error m' := by
  induction bindings with
  | nil => cases hmem
  | cons hd rest ih =>
    unfold upstreamBalanceService.settleBindings
    cases hsb : upstreamBalanceService.settleBinding billing hd d with
    | error e => exact ⟨e, rfl⟩
    | ok item =>
      rcases List.mem_cons.mp hmem with hhd | hrest
      · subst hhd
        unfold upstreamBalanceService.settleBinding at hsb
        rw [hfail] at hsb
        simp at hsb
      · obtain ⟨m', hm'⟩ := ih hrest
        rw [hm']
        exact ⟨m', rfl⟩

/-- C2: a `SettleDaily` run over a group with at least one interface
binding, where the billing query of some binding fails, returns an error and
leaves the store exactly as it was — no `AdjustBalance` is reached, so
neither the balance record nor the ledger changes and no partial settlement
across bindings is ever applied. -/
theorem upstream_C2_settle_all_or_nothing (billing : Billing) (s : Store)
    (g : models.Group) (d : Date)
    (hb : g.Settings.InterfaceBindings ≠ [])
    (hf : ∃ bd ∈ g.Settings.InterfaceBindings, ∃ m, billing bd.ID = .error m) :
    (∃ m, (upstreamBalanceService.SettleDaily billing s g d).1 = .error m) ∧
    (upstreamBalanceService.SettleDaily billing s g d).2 = s := by
  obtain ⟨bd, hmem, m, hfail⟩ := hf
  obtain ⟨m', hloop⟩ :=
    settleBindings_error_of_mem billing d g.Settings.InterfaceBindings bd m hmem hfail
  unfold upstreamBalanceService.SettleDaily
  rw [if_neg hb, hloop]
  exact ⟨⟨m', rfl⟩, rfl⟩

/-- C2 witness: a two-binding group whose second binding's billing query
fails; settlement returns an error and the store — holding a balance of 100
and an empty ledger — is untouched. -/
theorem upstream_C2_witness :
    (∃ m, (upstreamBalanceService.SettleDaily c2Billing c2Store c2Group c2Date).1 = .error m) ∧
    (upstreamBalanceService.SettleDaily c2Billing c2Store c2Group c2Date).2 = c2Store :=
  upstream_C2_settle_all_or_nothing c2Billing c2Store c2Group c2Date (by decide)
    ⟨⟨"ifb", "B", "3%"⟩, by decide, "billing down", by decide⟩

open upstreamBalanceWatcher

/-- C3 counterexample: with `min_balance = 100` and an hourly limit of 1, the
observations 80 (alert sent, flag set), 120 (recovery, flag cleared), 70 (an
ok-to-low transition with the window's sent count already at the limit) leave
the per-entity flag at `false` — `evaluateBalance` returns before
`state.low = true` on the limit-reached path — whereas the claim asserts the
transition is still recorded as low. No alert is delivered for the third
observation either (flags `[true, false, false]`). -/
theorem upstream_C3_cex :
    (runWatcher [] c3Obs).2 = [true, false, false] ∧
    lookupState (runWatcher [] c3Obs).1 1 =
      some { low := false, windowStart := some 0, sentCount := 1 } := by
  decide

/-- C3 (amended): when a balance observation is an ok-to-low transition
(`min_balance > 0`, balance below it, flag not set) inside a live rate-limit
window whose sent count has reached the entity's per-hour limit, no alert is
delivered for that window and the transition is NOT recorded: the watcher
stores the state unchanged, so `is_currently_low` remains `false` (a later
observation in a fresh window may then alert). -/
theorem upstream_C3_limit_drops_transition (states : WatcherStates) (now ws : Int)
    (bal : UpstreamBalance) (st : balanceAlertState)
    (hmin : 0 < bal.MinBalance) (hlow : bal.Balance < bal.MinBalance)
    (hstate : lookupState states bal.ChatID = some st)
    (hnotlow : st.low = false)
    (hws : st.windowStart = some ws)
    (hfresh : now - ws < hourTicks)
    (hlim : alertLimitFor bal ≤ st.sentCount) :
    evaluateBalance states now bal = (saveState states bal.ChatID st, false) ∧
    st.low = false := by
  have hdec : decide (bal.Balance < bal.MinBalance) = true := decide_eq_true hlow
  refine ⟨?_, hnotlow⟩
  simp only [evaluateBalance, resetWindow, hstate, Option.getD_some, hws, hdec, hnotlow,
    if_neg (not_le.mpr hmin), if_neg (not_le.mpr hfresh), if_pos hlim]
  simp

/-- C3 witness: the third observation of the counterexample scenario —
state `(low := false, window open at 0, 1 alert sent)`, limit 1, balance 70
against threshold 100 at instant 10 — is stored unchanged and unalerted. -/
theorem upstream_C3_limit_witness :
    evaluateBalance c3States 10 (c3Bal 70) =
      (saveState c3States 1 { low := false, windowStart := some 0, sentCount := 1 }, false) ∧
    ({ low := false, windowStart := some 0, sentCount := 1 } : balanceAlertState).low = false :=
  upstream_C3_limit_drops_transition c3States 10 0 (c3Bal 70)
    { low := false, windowStart := some 0, sentCount := 1 }
    (by decide) (by decide) (by decide) (by decide) (by decide) (by decide) (by decide)

/-- C6 counterexample: with `min_balance = 100` and an hourly limit of 2, the
balance sequence 150, 80, 90, 60 within one window yields one alert, not the
claimed two: 90 is still below the threshold of 100, so there is no recovery
after 80 and both 90 and 60 are suppressed by the already-set low flag. -/
theorem upstream_C6_cex :
    (runWatcher [] c6Obs).2.count true ≠ 2 := by
  decide

/-- C6 (amended): for one entity with `min_balance = 100` and per-hour limit
2, the watcher evaluating 150, 80, 90, 60 within one window delivers exactly
one low-balance alert — on the 150-to-80 transition — and suppresses the 90
and 60 observations, which are not ok-to-low transitions because 90 is still
below the threshold and the entity stays marked low. -/
theorem upstream_C6_single_alert :
    (runWatcher [] c6Obs).2 = [false, true, false, false] := by
  decide

theorem settleDaily_ok_eq (billing : Billing) (s : Store) (g : models.Group) (d : Date)
    (items : List UpstreamSettlementItem)
    (hb : g.Settings.InterfaceBindings ≠ [])
    (hsb : upstreamBalanceService.settleBindings billing d g.Settings.InterfaceBindings
             = .ok items) :
    upstreamBalanceService.SettleDaily billing s g d =
      ((.ok { Balance := adjustedRecord s g.TelegramID
                (-((items.map (fun it => it.Deduction)).sum)),
              Items := items,
              Deduction := (items.map (fun it => it.Deduction)).sum,
              Target := d } : Except String SettlementResult),
       (applyAdjust s g.TelegramID 0 (-((items.map (fun it => it.Deduction)).sum))
          upstreamLogTypeDaily (formatDate2006 d) "").2) := by
  unfold upstreamBalanceService.SettleDaily
  rw [if_neg hb, hsb]
  rfl

theorem settleDaily_error_eq_of_empty (billing : Billing) (s : Store) (g : models.Group)
    (d : Date) (hb : g.Settings.InterfaceBindings = []) :
    upstreamBalanceService.SettleDaily billing s g d = (.error "当前群未绑定任何接口", s) := by
  unfold upstreamBalanceService.SettleDaily
  rw [if_pos hb]

theorem settleDaily_error_eq_of_loop (billing : Billing) (s : Store) (g : models.Group)
    (d : Date) (e : String) (hb : g.Settings.InterfaceBindings ≠ [])
    (hsb : upstreamBalanceService.settleBindings billing d g.Settings.InterfaceBindings
             = .error e) :
    upstreamBalanceService.SettleDaily billing s g d = (.error e, s) := by
  unfold upstreamBalanceService.SettleDaily
  rw [if_neg hb, hsb]

theorem settleDaily_ok_inv (billing : Billing) (s : Store) (g : models.Group) (d : Date)
    (r : SettlementResult) (s' : Store)
    (h : upstreamBalanceService.SettleDaily billing s g d = (.ok r, s')) :
    ∃ items,
      upstreamBalanceService.settleBindings billing d g.Settings.InterfaceBindings = .ok items ∧
      r = { Balance := adjustedRecord s g.TelegramID
              (-((items.map (fun it => it.Deduction)).sum)),
            Items := items,
            Deduction := (items.map (fun it => it.Deduction)).sum,
            Target := d } ∧
      s' = (applyAdjust s g.TelegramID 0 (-((items.map (fun it => it.Deduction)).sum))
              upstreamLogTypeDaily (formatDate2006 d) "").2 := by
  by_cases hb : g.Settings.InterfaceBindings = []
  · rw [settleDaily_error_eq_of_empty billing s g d hb] at h
    simp [Prod.ext_iff] at h
  · cases hsb : upstreamBalanceService.settleBindings billing d g.Settings.InterfaceBindings with
    | error e =>
      rw [settleDaily_error_eq_of_loop billing s g d e hb hsb] at h
      simp [Prod.ext_iff] at h
    | ok items =>
      rw [settleDaily_ok_eq billing s g d items hb hsb] at h
      obtain ⟨h1, h2⟩ := Prod.mk.injEq .. ▸ h
      exact ⟨items, rfl, (Except.ok.inj h1).symm, h2.symm⟩

theorem settleBinding_ok_deduction (billing : Billing) (bd : InterfaceBinding) (d : Date)
    (item : UpstreamSettlementItem)
    (h : upstreamBalanceService.settleBinding billing bd d = .ok item) :
    item.Deduction = item.GrossAmount * item.RatePercent / 100 := by
  unfold upstreamBalanceService.settleBinding at h
  cases hb : billing bd.ID with
  | error e => rw [hb] at h; simp at h
  | ok summary =>
    rw [hb] at h
    have := Except.ok.inj h
    rw [← this]

theorem settleBindings_items_formula (billing : Billing) (d : Date) :
    ∀ (bindings : List InterfaceBinding) (items : List UpstreamSettlementItem),
      upstreamBalanceService.settleBindings billing d bindings = .ok items →
      ∀ it ∈ items, it.Deduction = it.GrossAmount * it.RatePercent / 100 := by
  intro bindings
  induction bindings with
  | nil =>
    intro items h it hmem
    unfold upstreamBalanceService.settleBindings at h
    obtain rfl := (Except.ok.inj h).symm
    cases hmem
  | cons hd rest ih =>
    intro items h it hmem
    unfold upstreamBalanceService.settleBindings at h
    cases hsb : upstreamBalanceService.settleBinding billing hd d with
    | error e => rw [hsb] at h; simp at h
    | ok item0 =>
      rw [hsb] at h
      cases hrest : upstreamBalanceService.settleBindings billing d rest with
      | error e => rw [hrest] at h; simp at h
      | ok items0 =>
        rw [hrest] at h
        obtain rfl := (Except.ok.inj h).symm
        rcases List.mem_cons.mp hmem with hit | hit
        · subst hit
          exact settleBinding_ok_deduction billing hd d it hsb
        · exact ih items0 hrest it hit

/-- C4: running `SettleDaily` twice over the same group and target date
compounds: the settlement path supplies the empty operation id to the ledger
adjust, so the duplicate check is skipped and the second run appends a
second `daily_settlement` ledger entry and debits the (deterministic) total
deduction again — the final balance is the starting balance minus twice the
deduction, a double-debit. -/
theorem upstream_C4_double_debit (billing : Billing) (s : Store) (g : models.Group) (d : Date)
    (r1 : SettlementResult) (s1 : Store) (r2 : SettlementResult) (s2 : Store)
    (h1 : upstreamBalanceService.SettleDaily billing s g d = (.ok r1, s1))
    (h2 : upstreamBalanceService.SettleDaily billing s1 g d = (.ok r2, s2)) :
    r2.Deduction = r1.Deduction ∧
    s2.logs.length = s.logs.length + 2 ∧
    balanceOf s2 g.TelegramID = balanceOf s g.TelegramID - 2 * r1.Deduction ∧
    ∃ l, s2.logs = s1.logs ++ [l] ∧ l.entryType = upstreamLogTypeDaily ∧
      l.Delta = -r1.Deduction := by
  obtain ⟨items1, hsb1, hr1, hs1⟩ := settleDaily_ok_inv billing s g d r1 s1 h1
  obtain ⟨items2, hsb2, hr2, hs2⟩ := settleDaily_ok_inv billing s1 g d r2 s2 h2
  have hitems : items2 = items1 := by
    rw [hsb1] at hsb2
    exact (Except.ok.inj hsb2).symm
  subst hitems
  have hded1 : r1.Deduction = (items2.map (fun it => it.Deduction)).sum := by rw [hr1]
  have hded2 : r2.Deduction = (items2.map (fun it => it.Deduction)).sum := by rw [hr2]
  refine ⟨by rw [hded1, hded2], ?_, ?_, ?_⟩
  · rw [hs2, logs_applyAdjust, hs1, logs_applyAdjust]
    simp
  · rw [hs2, balanceOf_applyAdjust, hs1, balanceOf_applyAdjust, hded1]
    ring
  · refine ⟨adjustLogEntry s1 g.TelegramID 0 (-((items2.map (fun it => it.Deduction)).sum))
        upstreamLogTypeDaily (formatDate2006 d) "", ?_, rfl, ?_⟩
    · rw [hs2, logs_applyAdjust]
    · show -((items2.map (fun it => it.Deduction)).sum) = -r1.Deduction
      rw [hded1]

/-- C4 witness: one binding at rate 10% over a gross of 200 (deduction 20);
run twice from a balance of 100, the ledger gains two `daily_settlement`
entries and the balance falls 100 → 80 → 60 = 100 − 2·20. -/
theorem upstream_C4_witness :
    upstreamBalanceService.SettleDaily c4Billing c4Store c4Group c4Date = (.ok c4R1, c4S1) ∧
    upstreamBalanceService.SettleDaily c4Billing c4S1 c4Group c4Date = (.ok c4R2, c4S2) ∧
    c4S2.logs.length = c4Store.logs.length + 2 ∧
    balanceOf c4S2 9 = balanceOf c4Store 9 - 2 * c4R1.Deduction :=
  ⟨by decide, by decide,
   (upstream_C4_double_debit c4Billing c4Store c4Group c4Date c4R1 c4S1 c4R2 c4S2
      (by decide) (by decide)).2.1,
   (upstream_C4_double_debit c4Billing c4Store c4Group c4Date c4R1 c4S1 c4R2 c4S2
      (by decide) (by decide)).2.2.1⟩

/-- C5: on every successful settlement run, each item's deduction equals its
gross amount times (rate / 100), the run's total is the sum of the item
deductions, and exactly one ledger entry is appended: a debit of the
negative total, of type `daily_settlement`, with the formatted target date
as remark. -/
theorem upstream_C5_deduction_formula (billing : Billing) (s : Store) (g : models.Group)
    (d : Date) (r : SettlementResult) (s' : Store)
    (h : upstreamBalanceService.SettleDaily billing s g d = (.ok r, s')) :
    (∀ it ∈ r.Items, it.Deduction = it.GrossAmount * it.RatePercent / 100) ∧
    r.Deduction = (r.Items.map (fun it => it.Deduction)).sum ∧
    ∃ l, s'.logs = s.logs ++ [l] ∧ l.Delta = -r.Deduction ∧
      l.entryType = upstreamLogTypeDaily ∧ l.Remark = formatDate2006 d := by
  obtain ⟨items, hsb, hr, hs⟩ := settleDaily_ok_inv billing s g d r s' h
  have hitems : r.Items = items := by rw [hr]
  have hded : r.Deduction = (items.map (fun it => it.Deduction)).sum := by rw [hr]
  refine ⟨?_, ?_, ?_⟩
  · intro it hmem
    exact settleBindings_items_formula billing d g.Settings.InterfaceBindings items hsb it
      (hitems ▸ hmem)
  · rw [hded, hitems]
  · refine ⟨adjustLogEntry s g.TelegramID 0 (-((items.map (fun it => it.Deduction)).sum))
        upstreamLogTypeDaily (formatDate2006 d) "", ?_, ?_, rfl, rfl⟩
    · rw [hs, logs_applyAdjust]
    · show -((items.map (fun it => it.Deduction)).sum) = -r.Deduction
      rw [hded]

/-- C5 witness: the two-binding scenario — gross amounts 1000 and 2000 at
rates 2% and 1.5% — yields per-binding deductions 20 and 30 and one total
debit of 50, which the theorem ties to the sum of the item deductions. -/
theorem upstream_C5_witness :
    upstreamBalanceService.SettleDaily c5Billing c5Store c5Group c5Date =
      (.ok c5Result, c5After) ∧
    c5Result.Items.map (fun it => it.Deduction) = [20, 30] ∧
    c5Result.Deduction = 50 ∧
    c5Result.Deduction = (c5Result.Items.map (fun it => it.Deduction)).sum :=
  ⟨by decide, by decide, by decide,
   (upstream_C5_deduction_formula c5Billing c5Store c5Group c5Date c5Result c5After
      (by decide)).2.1⟩

theorem AdjustBalanceAndPublish_fst (s : Store) (q : BalanceChangeQueue) (c u : Int)
    (δ : ℚ) (t r op : String) :
    (AdjustBalanceAndPublish s q c u δ t r op).1 =
      MongoUpstreamBalanceRepository.AdjustBalance s c u δ t r op := by
  simp only [AdjustBalanceAndPublish]
  split
  · rfl
  · split <;> rfl

theorem AdjustBalanceAndPublish_write (s : Store) (q : BalanceChangeQueue) (c u : Int)
    (δ : ℚ) (t r op : String)
    (h : (op != "" && MongoUpstreamBalanceRepository.hasOperationLog s c op) = false) :
    AdjustBalanceAndPublish s q c u δ t r op =
      (.ok (applyAdjust s c u δ t r op),
       publishBalanceChange q (applyAdjust s c u δ t r op).1) := by
  simp only [AdjustBalanceAndPublish]
  rw [if_neg (by simp [h]), MongoUpstreamBalanceRepository.AdjustBalance_write s c u δ t r op h]

theorem AdjustBalanceAndPublish_op_empty (s : Store) (q : BalanceChangeQueue) (c u : Int)
    (δ : ℚ) (t r : String) :
    AdjustBalanceAndPublish s q c u δ t r "" =
      (.ok (applyAdjust s c u δ t r ""),
       publishBalanceChange q (applyAdjust s c u δ t r "").1) :=
  AdjustBalanceAndPublish_write s q c u δ t r "" (by simp)

theorem service_adjust_eq (s : Store) (e u : Int) (δ : ℚ) (t : String) (hδ : δ ≠ 0) :
    upstreamBalanceService.adjust s e u δ t =
      ((.ok (some (applyAdjust s e u δ t "" "").1,
             upstreamBalanceService.shouldWarn (some (applyAdjust s e u δ t "" "").1)) :
          Except String (Option UpstreamBalance × Bool)),
       (applyAdjust s e u δ t "" "").2) := by
  unfold upstreamBalanceService.adjust
  rw [if_neg hδ, MongoUpstreamBalanceRepository.AdjustBalance_op_empty]

theorem adjustWithPublish_eq (s : Store) (q : BalanceChangeQueue) (e u : Int) (δ : ℚ)
    (t : String) (hδ : δ ≠ 0) :
    adjustWithPublish s q e u δ t =
      (((.ok (some (applyAdjust s e u δ t "" "").1,
              upstreamBalanceService.shouldWarn (some (applyAdjust s e u δ t "" "").1)) :
           Except String (Option UpstreamBalance × Bool)),
        (applyAdjust s e u δ t "" "").2),
       publishBalanceChange q (applyAdjust s e u δ t "" "").1) := by
  unfold adjustWithPublish
  rw [if_neg hδ, AdjustBalanceAndPublish_op_empty]

theorem settleDailyWithPublish_ok_eq (billing : Billing) (s : Store) (q : BalanceChangeQueue)
    (g : models.Group) (d : Date) (items : List UpstreamSettlementItem)
    (hb : g.Settings.InterfaceBindings ≠ [])
    (hsb : upstreamBalanceService.settleBindings billing d g.Settings.InterfaceBindings
             = .ok items) :
    SettleDailyWithPublish billing s q g d =
      (((.ok { Balance := adjustedRecord s g.TelegramID
                 (-((items.map (fun it => it.Deduction)).sum)),
               Items := items,
               Deduction := (items.map (fun it => it.Deduction)).sum,
               Target := d } : Except String SettlementResult),
        (applyAdjust s g.TelegramID 0 (-((items.map (fun it => it.Deduction)).sum))
           upstreamLogTypeDaily (formatDate2006 d) "").2),
       publishBalanceChange q
         (adjustedRecord s g.TelegramID (-((items.map (fun it => it.Deduction)).sum)))) := by
  unfold SettleDailyWithPublish
  rw [if_neg hb, hsb]
  rfl

/-- C7: every successful non-replay store `Adjust` — the manual `Add` /
`Subtract` path (service `adjust` with a non-zero delta) and the settlement
debit of `SettleDaily` alike — publishes a balance-change event carrying the
updated record onto the stream the Balance Watcher consumes: the manual path
ends with the updated record offered to the buffer, a successful settlement
run ends with the post-settlement record offered to the buffer, an offer is
enqueued whenever the bounded buffer has room (and dropped, never queued
elsewhere, when it is full), and for every buffer state the transactional
outcome of the publishing store `Adjust` is exactly that of the bare
`AdjustBalance` — publication can neither block nor fail the ledger write. -/
theorem upstream_C7_adjust_publishes :
    (∀ (s : Store) (q : BalanceChangeQueue) (e u : Int) (δ : ℚ) (t : String)
       (b : UpstreamBalance) (w : Bool) (s' : Store), δ ≠ 0 →
       upstreamBalanceService.adjust s e u δ t = (.ok (some b, w), s') →
       adjustWithPublish s q e u δ t = ((.ok (some b, w), s'), publishBalanceChange q b)) ∧
    (∀ (billing : Billing) (s : Store) (q : BalanceChangeQueue) (g : models.Group) (d : Date)
       (r : SettlementResult) (s' : Store),
       upstreamBalanceService.SettleDaily billing s g d = (.ok r, s') →
       SettleDailyWithPublish billing s q g d =
         ((.ok r, s'), publishBalanceChange q r.Balance)) ∧
    (∀ (q : BalanceChangeQueue) (b : UpstreamBalance),
       q.events.length < q.capacity → (publishBalanceChange q b).events = q.events ++ [b]) ∧
    (∀ (s : Store) (q : BalanceChangeQueue) (c u : Int) (δ : ℚ) (t r op : String),
       (AdjustBalanceAndPublish s q c u δ t r op).1 =
         MongoUpstreamBalanceRepository.AdjustBalance s c u δ t r op) := by
  refine ⟨?_, ?_, ?_, AdjustBalanceAndPublish_fst⟩
  · intro s q e u δ t b w s' hδ h
    rw [service_adjust_eq s e u δ t hδ] at h
    obtain ⟨⟨hb, hw⟩, hs⟩ :
        ((applyAdjust s e u δ t "" "").1 = b ∧
         upstreamBalanceService.shouldWarn (some (applyAdjust s e u δ t "" "").1) = w) ∧
        (applyAdjust s e u δ t "" "").2 = s' := by
      simpa [Prod.ext_iff] using h
    subst hb
    subst hw
    subst hs
    exact adjustWithPublish_eq s q e u δ t hδ
  · intro billing s q g d r s' h
    by_cases hb : g.Settings.InterfaceBindings = []
    · rw [settleDaily_error_eq_of_empty billing s g d hb] at h
      simp [Prod.ext_iff] at h
    · obtain ⟨items, hsb, hr, hs⟩ := settleDaily_ok_inv billing s g d r s' h
      subst hr
      subst hs
      exact settleDailyWithPublish_ok_eq billing s q g d items hb hsb
  · intro q b hroom
    simp only [publishBalanceChange, if_pos hroom]

/-- C7 witness: on the empty store with an empty 8-slot buffer, a manual
credit of 5 publishes exactly the updated record, and a settlement run over
one binding (gross 300 at 10%, deduction 30) publishes exactly the
post-settlement record. -/
theorem upstream_C7_witness :
    adjustWithPublish c7Store c7Queue 1 2 5 upstreamLogTypeManualAdd =
      ((.ok (some c7Rec, false), c7After), publishBalanceChange c7Queue c7Rec) ∧
    (publishBalanceChange c7Queue c7Rec).events = [c7Rec] ∧
    SettleDailyWithPublish c7Billing c7Store c7Queue c7Group c7Date =
      ((.ok c7SettleResult, c7SettleAfter), publishBalanceChange c7Queue c7SettleRec) ∧
    (publishBalanceChange c7Queue c7SettleRec).events = [c7SettleRec] :=
  ⟨upstream_C7_adjust_publishes.1 c7Store c7Queue 1 2 5 upstreamLogTypeManualAdd c7Rec false
     c7After (by decide) (by decide),
   by decide,
   upstream_C7_adjust_publishes.2.1 c7Billing c7Store c7Queue c7Group c7Date c7SettleResult
     c7SettleAfter (by decide),
   by decide⟩

theorem setMinBalance_record (s : Store) (e : Int) (v : ℚ) :
    (MongoUpstreamBalanceRepository.SetMinBalance s e v).1 =
      { ChatID := e, Balance := balanceOf s e, MinBalance := v,
        AlertLimitPerHour := alertLimitOf s e } := by
  unfold MongoUpstreamBalanceRepository.SetMinBalance balanceOf alertLimitOf
  cases hfb : findBalance s e with
  | none => rfl
  | some b0 =>
    have hc := findBalance_some_chatID hfb
    cases b0
    cases hc
    rfl

theorem setMinBalance_store (s : Store) (e : Int) (v : ℚ) :
    (MongoUpstreamBalanceRepository.SetMinBalance s e v).2 =
      { balances := storeBalance s.balances (MongoUpstreamBalanceRepository.SetMinBalance s e v).1,
        logs := s.logs } := rfl

theorem findBalance_setMinBalance (s : Store) (e : Int) (v : ℚ) :
    findBalance (MongoUpstreamBalanceRepository.SetMinBalance s e v).2 e =
      some (MongoUpstreamBalanceRepository.SetMinBalance s e v).1 := by
  rw [setMinBalance_store]
  unfold findBalance
  exact find?_storeBalance _ e (by rw [setMinBalance_record]) _

theorem serviceSetMinBalance_eq (s : Store) (e : Int) (v : ℚ) :
    upstreamBalanceService.SetMinBalance s e v =
      ((MongoUpstreamBalanceRepository.SetMinBalance s e v).1,
       (applyAdjust (MongoUpstreamBalanceRepository.SetMinBalance s e v).2 e 0 0
          upstreamLogTypeThreshold ("set_min_balance=" ++ format2 v) "").2) := by
  unfold upstreamBalanceService.SetMinBalance
  simp only [MongoUpstreamBalanceRepository.AdjustBalance_op_empty]

/-- C8: for every entity and non-negative threshold, the service
`SetMinBalance(entity, value)` followed by `GetBalance(entity)` returns a
record whose `min_balance` is `value` and whose `balance` equals the balance
before the call (`0` when the record is created by the upsert, per
`balanceOf`); the returned record likewise carries the new threshold and the
unchanged balance — `SetMinBalance` never alters the balance amount. -/
theorem upstream_C8_min_balance_frame (s : Store) (e : Int) (v : ℚ) (_hv : 0 ≤ v) :
    MongoUpstreamBalanceRepository.GetBalance (upstreamBalanceService.SetMinBalance s e v).2 e =
      some { ChatID := e, Balance := balanceOf s e, MinBalance := v,
             AlertLimitPerHour := alertLimitOf s e } ∧
    (upstreamBalanceService.SetMinBalance s e v).1.MinBalance = v ∧
    (upstreamBalanceService.SetMinBalance s e v).1.Balance = balanceOf s e := by
  refine ⟨?_, by rw [serviceSetMinBalance_eq, setMinBalance_record],
          by rw [serviceSetMinBalance_eq, setMinBalance_record]⟩
  rw [serviceSetMinBalance_eq]
  show findBalance (applyAdjust (MongoUpstreamBalanceRepository.SetMinBalance s e v).2 e 0 0
    upstreamLogTypeThreshold ("set_min_balance=" ++ format2 v) "").2 e = _
  rw [findBalance_applyAdjust]
  congr 1
  unfold MongoUpstreamBalanceRepository.adjustedRecord
  rw [findBalance_setMinBalance, setMinBalance_record]
  simp

/-- C8 witness: on a store holding the record `(chat 3, balance 42,
threshold 7, limit 2)`, setting the threshold to 9 yields a read of
`(3, 42, 9, 2)` — threshold updated, balance untouched. -/
theorem upstream_C8_witness :
    MongoUpstreamBalanceRepository.GetBalance
        (upstreamBalanceService.SetMinBalance c8Store 3 9).2 3 =
      some { ChatID := 3, Balance := balanceOf c8Store 3, MinBalance := 9,
             AlertLimitPerHour := alertLimitOf c8Store 3 } ∧
    balanceOf c8Store 3 = 42 ∧
    (upstreamBalanceService.SetMinBalance c8Store 3 9).1.Balance = balanceOf c8Store 3 :=
  ⟨(upstream_C8_min_balance_frame c8Store 3 9 (by decide)).1,
   by decide,
   (upstream_C8_min_balance_frame c8Store 3 9 (by decide)).2.2⟩

theorem setAlertLimit_record (s : Store) (e : Int) (lim : Int) :
    (MongoUpstreamBalanceRepository.SetAlertLimit s e lim).1 =
      { ChatID := e, Balance := balanceOf s e, MinBalance := minBalanceOf s e,
        AlertLimitPerHour := lim } := by
  unfold MongoUpstreamBalanceRepository.SetAlertLimit balanceOf minBalanceOf
  cases hfb : findBalance s e with
  | none => rfl
  | some b0 =>
    have hc := findBalance_some_chatID hfb
    cases b0
    cases hc
    rfl

theorem setAlertLimit_store (s : Store) (e : Int) (lim : Int) :
    (MongoUpstreamBalanceRepository.SetAlertLimit s e lim).2 =
      { balances := storeBalance s.balances (MongoUpstreamBalanceRepository.SetAlertLimit s e lim).1,
        logs := s.logs } := rfl

theorem serviceSetAlertLimit_eq (s : Store) (e u : Int) (lim : Int) :
    upstreamBalanceService.SetAlertLimit s e u lim =
      ((MongoUpstreamBalanceRepository.SetAlertLimit s e lim).1,
       (applyAdjust (MongoUpstreamBalanceRepository.SetAlertLimit s e lim).2 e u 0
          upstreamLogTypeThreshold ("set_alert_limit=" ++ toString lim) "").2) := by
  unfold upstreamBalanceService.SetAlertLimit
  simp only [MongoUpstreamBalanceRepository.AdjustBalance_op_empty]

/-- C9: each service call to `SetMinBalance` and each to `SetAlertLimit`
persists its field with upsert semantics, returns the updated record, and
appends exactly one zero-delta ledger entry of the threshold-change type
(`set_min_balance`) to the entity's ledger for audit. -/
theorem upstream_C9_threshold_audit (s : Store) (e u : Int) (v : ℚ) (lim : Int) :
    (∃ l, (upstreamBalanceService.SetMinBalance s e v).2.logs = s.logs ++ [l] ∧
       l.Delta = 0 ∧ l.entryType = upstreamLogTypeThreshold) ∧
    (upstreamBalanceService.SetMinBalance s e v).1.MinBalance = v ∧
    (∃ l, (upstreamBalanceService.SetAlertLimit s e u lim).2.logs = s.logs ++ [l] ∧
       l.Delta = 0 ∧ l.entryType = upstreamLogTypeThreshold) ∧
    (upstreamBalanceService.SetAlertLimit s e u lim).1.AlertLimitPerHour = lim := by
  have h1 : (upstreamBalanceService.SetMinBalance s e v).2.logs =
      s.logs ++ [adjustLogEntry (MongoUpstreamBalanceRepository.SetMinBalance s e v).2 e 0 0
        upstreamLogTypeThreshold ("set_min_balance=" ++ format2 v) ""] := by
    rw [serviceSetMinBalance_eq, logs_applyAdjust, setMinBalance_store]
  have h2 : (upstreamBalanceService.SetAlertLimit s e u lim).2.logs =
      s.logs ++ [adjustLogEntry (MongoUpstreamBalanceRepository.SetAlertLimit s e lim).2 e u 0
        upstreamLogTypeThreshold ("set_alert_limit=" ++ toString lim) ""] := by
    rw [serviceSetAlertLimit_eq, logs_applyAdjust, setAlertLimit_store]
  exact ⟨⟨_, h1, rfl, rfl⟩, by rw [serviceSetMinBalance_eq, setMinBalance_record],
         ⟨_, h2, rfl, rfl⟩, by rw [serviceSetAlertLimit_eq, setAlertLimit_record]⟩

/-- C10: malformed settlement inputs silently become zero rather than
errors — a rate string that is empty (after trimming and dropping `%`) or
unparsable yields rate 0; a first matching billing line item whose gross
amount does not parse yields gross amount 0; and in both cases
`settleBinding` succeeds with a deduction of 0 (given the billing query
itself succeeded), silently zeroing that binding's deduction instead of
failing the run. -/
theorem upstream_C10_malformed_inputs_zero :
    parseRatePercent "" = 0 ∧
    (∀ rate, parseFloat? (goTrimPercent (goTrimSpace rate)) = none → parseRatePercent rate = 0) ∧
    (∀ (items : List SummaryItem) (d : String) (it : SummaryItem),
       items.find? (fun x => normalizeSummaryDate x.Date == d) = some it →
       parseFloat? (goTrimSpace it.GrossAmount) = none →
       amountForDate items d = 0) ∧
    (∀ (billing : Billing) (bd : InterfaceBinding) (d : Date) (summ : Option SummaryByPZID),
       billing bd.ID = .ok summ →
       parseRatePercent bd.Rate = 0 ∨ parseAmountFromSummary summ d = 0 →
       ∃ item, upstreamBalanceService.settleBinding billing bd d = .ok item ∧
         item.Deduction = 0) := by
  refine ⟨by decide, ?_, ?_, ?_⟩
  · intro rate hparse
    unfold parseRatePercent
    by_cases hclean : goTrimPercent (goTrimSpace rate) = ""
    · rw [if_pos hclean]
    · rw [if_neg hclean, hparse]
  · intro items d
    induction items with
    | nil => intro it hfind; simp [List.find?] at hfind
    | cons hd rest ih =>
      intro it hfind hparse
      by_cases hpred : (normalizeSummaryDate hd.Date == d) = true
      · simp only [List.find?_cons, hpred] at hfind
        obtain rfl := Option.some.inj hfind
        unfold amountForDate
        rw [if_pos hpred, hparse]
      · have hpredf : (normalizeSummaryDate hd.Date == d) = false := by
          simpa using hpred
        simp only [List.find?_cons, hpredf] at hfind
        unfold amountForDate
        rw [if_neg hpred]
        exact ih it hfind hparse
  · intro billing bd d summ hbill hzero
    refine ⟨{ InterfaceID := bd.ID, InterfaceName := bd.Name,
              RatePercent := parseRatePercent bd.Rate,
              GrossAmount := parseAmountFromSummary summ d,
              Deduction := parseAmountFromSummary summ d * parseRatePercent bd.Rate / 100 },
            ?_, ?_⟩
    · unfold upstreamBalanceService.settleBinding
      rw [hbill]
    · show parseAmountFromSummary summ d * parseRatePercent bd.Rate / 100 = 0
      rcases hzero with hz | hz
      · rw [hz, mul_zero, zero_div]
      · rw [hz, zero_mul, zero_div]

/-- C10 witness: the unparsable rate `"abc"` becomes 0; a matching line item
for 2024-05-01 with gross amount `"oops"` becomes 0; and `settleBinding` for
a binding with that rate over that summary succeeds with deduction 0. -/
theorem upstream_C10_witness :
    parseRatePercent "abc" = 0 ∧
    amountForDate c10Summary.Items "2024-05-01" = 0 ∧
    (∃ item, upstreamBalanceService.settleBinding c10Billing c10Binding c10Date = .ok item ∧
       item.Deduction = 0) ∧
    parseRatePercent "" = 0 :=
  ⟨upstream_C10_malformed_inputs_zero.2.1 "abc" (by decide),
   upstream_C10_malformed_inputs_zero.2.2.1 c10Summary.Items "2024-05-01"
     ⟨"2024-05-01", "oops"⟩ (by decide) (by decide),
   upstream_C10_malformed_inputs_zero.2.2.2 c10Billing c10Binding c10Date (some c10Summary)
     (by decide) (Or.inl (by decide)),
   upstream_C10_malformed_inputs_zero.1⟩
